import Mathlib

/-!
A shallow embedding, in Lean, of the feature-selection demo front-end
(`demo_callbacks.py`, `demo_interface.py`, `src/demo_enums.py`,
`src/utils.py`, `demo_configs.py`), together with theorems that settle the
frozen claims about it.

Python floats are modelled as rationals (`ℚ`), Python ints as `ℤ`/`ℕ`,
fallible Python code (code that can raise an exception) as `Except PyError`.
The external `DataSet` object (from the `data` module, which is not part of
this repository) is modelled as an abstract structure of fields and
functions, quantified over in the theorems; the same holds for the plotting
library's `sample_colorscale`.
-/

/-- A Python exception raised by code in the embedded fragment.
`preventUpdate` is Dash's `PreventUpdate`; `keyError` is a pandas/dict
`KeyError`; `indexError` is a numpy `IndexError`. -/
inductive PyError where
  | preventUpdate : PyError
  | keyError (key : String) : PyError
  | indexError (msg : String) : PyError
  | other (msg : String) : PyError
deriving DecidableEq, Repr

/-- Python's `round` on a real value (banker's rounding: ties go to the even
integer), as used by `round(max_feat / 2)` in `create_features_input` and by
`round(x, 2)` (via `pyRound2`). -/
def pyRound (q : ℚ) : ℤ :=
  let f : ℤ := ⌊q⌋
  let r : ℚ := q - f
  if r < 1 / 2 then f
  else if 1 / 2 < r then f + 1
  else if f % 2 = 0 then f else f + 1

/-- Python's `round(x, 2)`, used for the 2-decimal displayed scores. -/
def pyRound2 (q : ℚ) : ℚ := (pyRound (q * 100) : ℚ) / 100

/-- Python's `int(i)` applied to a numpy `int64` element: the conversion is
value-preserving, only the runtime type changes, so on the embedded integer
value it is the identity. -/
def pyInt (i : ℤ) : ℤ := i

/-- The external `DataSet` object (`data` module, not part of this
repository), reduced to the interface the embedded code consumes:
`name`, `n`, `X.columns`, `get_relevance()`, `get_redundancy()`,
`baseline_cv_score`, `solve_feature_selection` and `score_indices_cv`.
`solve_feature_selection` may raise, hence the `Except`. -/
structure DataSet where
  name : String
  n : ℕ
  columns : List String
  relevance : List ℚ
  redundancy : List (List ℚ)
  baseline_cv_score : ℚ
  solve_feature_selection : ℕ → ℚ → ℚ → String → Except PyError (List ℤ)
  score_indices_cv : List ℤ → ℚ

/-- `COLOR_SCALE` from `demo_configs.py`. -/
def COLOR_SCALE : List String := ["#074C91", "#2A7DE1", "#17BEBB", "#FFA143", "#F37820"]

/-- `SolverType` from `src/demo_enums.py`. -/
inductive SolverType where
  | CQM : SolverType
  | NL : SolverType
deriving DecidableEq, Repr

/-- The `label` property of `SolverType`. -/
def SolverType.label : SolverType → String
  | .CQM => "Quantum Hybrid (CQM)"
  | .NL => "Quantum Hybrid (NL)"

/-- `generate_problem_details_table_rows` from `demo_interface.py`: the
table body is a list of rows, each row a list of cell strings; the single
row is `("Solver:", solver, "Time Limit:", f"{time_limit}s")`. -/
def generate_problem_details_table_rows (solver : String) (time_limit : ℚ) :
    List (List String) :=
  [["Solver:", solver, "Time Limit:", toString time_limit ++ "s"]]

/-- Return record of the `run_optimization` callback
(`RunOptimizationReturn` in `demo_callbacks.py`). -/
structure RunOptimizationReturn where
  score : ℚ
  features : List ℤ
  problem_details_table : List (List String)
deriving DecidableEq, Repr

/-- `run_optimization` from `demo_callbacks.py`. `load` models the
`DataSet(data_set)` constructor of the external `data` module. An exception
raised by `solve_feature_selection` propagates (there is no `try` in the
source), hence the `Except` result. -/
def run_optimization (load : String → DataSet) (run_click : ℕ)
    (solver_type : SolverType) (time_limit : ℚ) (num_features : ℕ)
    (redund_penalty : ℚ) (data_set : String) :
    Except PyError RunOptimizationReturn :=
  let solver : String := if solver_type = SolverType.CQM then "cqm" else "nl"
  let data := load data_set
  match data.solve_feature_selection num_features (1 - redund_penalty) time_limit solver with
  | .error e => .error e
  | .ok solution₀ =>
    let solution := solution₀.map pyInt
    let score := data.score_indices_cv solution
    let problem_details_table :=
      generate_problem_details_table_rows solver_type.label time_limit
    .ok ⟨score, solution, problem_details_table⟩

/-- A Python dict literal with `ℕ` keys and `String` values, as an
association list: a later binding of a key overwrites an earlier one.
Used for the marks dict `{1: "1", max_feat: str(max_feat)}`. -/
def pyDictNS (ps : List (ℕ × String)) : List (ℕ × String) :=
  ps.foldl (fun acc p => acc.filter (fun q => q.1 ≠ p.1) ++ [p]) []

/-- `create_features_input` from `demo_callbacks.py`: slider max is `data.n`,
default value is `round(max_feat / 2)`, marks label `1` and `max_feat`. -/
def create_features_input (load : String → DataSet) (data_set : String) :
    ℕ × ℤ × List (ℕ × String) :=
  let data := load data_set
  let max_feat := data.n
  let value := pyRound ((max_feat : ℚ) / 2)
  let marks := pyDictNS [(1, "1"), (max_feat, toString max_feat)]
  (max_feat, value, marks)

/-- The hover payload of a Plotly graph: `hover_data["points"][0]["pointIndex"]`. -/
structure HoverData where
  pointIndex : ℕ
deriving DecidableEq, Repr

/-- A Plotly bar trace, restricted to the fields the embedded code sets:
`go.Bar(x=..., y=..., text=..., textposition="outside")` together with the
marker fields set by `fig.update_traces`. A scalar `marker_line_width` is
broadcast to a per-bar list. -/
structure BarTrace where
  x : List String
  y : List ℚ
  text : List ℚ
  marker_color : List String
  marker_line_color : String
  marker_line_width : List ℚ
deriving DecidableEq, Repr

/-- A Plotly figure, restricted to the fields the embedded code sets. -/
structure Figure where
  data : List BarTrace
  xaxis_title : Option String
  yaxis_title : Option String
deriving DecidableEq, Repr

/-- numpy fancy-index assignment `xs[idxs] = v` on a 1-d array: each index is
taken modulo-wrapped when negative and the assignment raises `IndexError`
when an index is out of bounds. -/
def npFancySet (xs : List ℚ) (idxs : List ℤ) (v : ℚ) : Except PyError (List ℚ) :=
  match idxs with
  | [] => .ok xs
  | i :: rest =>
    let j : ℤ := if i < 0 then i + xs.length else i
    if 0 ≤ j ∧ j.toNat < xs.length then npFancySet (xs.set j.toNat v) rest v
    else .error (.indexError "index out of bounds")

/-- `np.min` on a nonempty 1-d array (0 as a dummy for the empty case,
which the embedded code never reaches for a nonempty data set). -/
def npMin (xs : List ℚ) : ℚ := xs.foldl min (xs.headD 0)

/-- `np.max`, analogous to `npMin`. -/
def npMax (xs : List ℚ) : ℚ := xs.foldl max (xs.headD 0)

/-- The string surgery `"rgba" + c[3:-1] + ", " + str(o) + ")"` applied to one
sampled color `c` and one opacity `o` in `draw_bar_chart`. -/
def rgbaWithOpacity (c : String) (o : ℚ) : String :=
  "rgba" ++ ((c.drop 3).dropRight 1) ++ ", " ++ toString o ++ ")"

/-- `draw_bar_chart` from `src/utils.py`. `sample` models the plotting
library's `sample_colorscale` (external). `selected_features` is `None` for
the input graph and the stored solution list for the output graph; Python
truthiness makes `None` and `[]` coincide. The unguarded read
`df["Redundancy"].values` raises `KeyError` when the hover index was at
least `data.n`, since the column was then never assigned. -/
def draw_bar_chart (sample : List String → List ℚ → List String)
    (hover_data : Option HoverData) (selected_features : Option (List ℤ))
    (data : DataSet) (show_redundancy : Bool) : Except PyError Figure := do
  let nrows := data.columns.length
  let selTruthy : Bool := match selected_features with
    | some (_ :: _) => true
    | _ => false
  let sel : List ℤ := if selTruthy then selected_features.getD [] else []
  let opacity ← npFancySet
    (List.replicate nrows (if selTruthy then (3 : ℚ) / 10 else 1)) sel 1
  let mlw ←
    if data.n < 50 then npFancySet (List.replicate nrows 1) sel 3
    else pure (List.replicate nrows 0)
  let branch : Except PyError (List String × List ℚ) :=
    match hover_data, show_redundancy with
    | some hd, true => do
      let idx := hd.pointIndex
      let redundancy_data := data.redundancy
      let redundCol : Option (List ℚ) :=
        if idx < data.n then some (redundancy_data.getD idx []) else none
      match redundCol with
      | none => .error (.keyError "Redundancy")
      | some color_data =>
        let mn := npMin color_data
        let mx := npMax color_data
        let normalized := color_data.map (fun c => (c - mn) / (mx - mn))
        let rgb := sample COLOR_SCALE normalized
        let rgba_colors := List.zipWith rgbaWithOpacity rgb opacity
        let display_text := if data.n < 30 then color_data.map pyRound2 else []
        .ok (rgba_colors, display_text)
    | _, _ =>
      .ok (opacity.map (fun o => "rgba(42, 125, 225, " ++ toString o ++ ")"), [])
  let (rgba_colors, display_text) ← branch
  .ok
    { data := [{ x := data.columns
                 y := data.relevance
                 text := display_text
                 marker_color := rgba_colors
                 marker_line_color := "black"
                 marker_line_width := mlw }]
      xaxis_title :=
        if data.name = "titanic" then some "Passenger Features"
        else if data.name = "scene" then some "Color and Texture Features in Image"
        else none
      yaxis_title := some "Feature Relevance to Outcome" }

/-- `draw_accuracy_bars` from `src/utils.py`: one bar trace with two bars,
labels `str(data.n)` and `str(len(selected_features))`, heights the
2-decimal-rounded baseline score and solution score. -/
def draw_accuracy_bars (data : DataSet) (selected_features : List ℤ)
    (soln_score : ℚ) : Figure :=
  let scores := [pyRound2 data.baseline_cv_score, pyRound2 soln_score]
  { data := [{ x := [toString data.n, toString selected_features.length]
               y := scores
               text := scores
               marker_color := [COLOR_SCALE.getD 1 "", COLOR_SCALE.getLastD ""]
               marker_line_color := "black"
               marker_line_width := List.replicate 2 1 }]
    xaxis_title := some "Num Features"
    yaxis_title := none }

/-- `draw_input_graph` from `demo_callbacks.py`: raises `PreventUpdate` when
the trigger is a hover on the input graph and Show Redundancy is off,
otherwise draws the bar chart of the currently selected data set
(`selected_features = None`). `show_red` is the truthiness of the
checklist value. -/
def draw_input_graph (load : String → DataSet)
    (sample : List String → List ℚ → List String) (triggered_id : String)
    (hover_data : Option HoverData) (data_set : String) (show_red : Bool) :
    Except PyError Figure :=
  if triggered_id = "input-graph" ∧ show_red = false then .error .preventUpdate
  else draw_bar_chart sample hover_data none (load data_set) show_red

/-- The initial payload of a `dcc.Store` component. -/
inductive StoreData where
  | boolVal (b : Bool) : StoreData
  | numVal (q : ℚ) : StoreData
  | listVal (xs : List ℤ) : StoreData
deriving DecidableEq, Repr

/-- A `dcc.Store` declaration: id and initial data. -/
structure Store where
  id : String
  data : StoreData
deriving DecidableEq, Repr

/-- The parts of the component tree built by `create_interface` in
`demo_interface.py` that carry reactive state: the three `dcc.Store`
declarations, the initial tab selection and the `disabled` flag of the
Results tab. -/
structure Interface where
  stores : List Store
  tabs_value : String
  results_tab_disabled : Bool
deriving DecidableEq, Repr

/-- `create_interface` from `demo_interface.py`, restricted to the
state-bearing fields of `Interface`. -/
def create_interface : Interface :=
  { stores := [⟨"run-in-progress", .boolVal false⟩,
               ⟨"selected-features", .listVal []⟩,
               ⟨"soln-score", .numVal 0⟩]
    tabs_value := "input-tab"
    results_tab_disabled := true }

/-- Python's `str.split(" ")` on the underlying character list: split at
every single space character; adjacent separators yield empty tokens and
the empty list of characters yields one empty token. -/
def splitSp : List Char → List (List Char)
  | [] => [[]]
  | c :: rest =>
    if c = ' ' then [] :: splitSp rest
    else
      match splitSp rest with
      | [] => [[c]]
      | t :: ts => (c :: t) :: ts

/-- Python's `" ".join` on character lists: interleave a single space. -/
def joinSp : List (List Char) → List Char
  | [] => []
  | [t] => t
  | t :: ts => t ++ ' ' :: joinSp ts

/-- Python's `s.split(" ")` at `String` level. -/
def pySplit (s : String) : List String := (splitSp s.data).map (fun cs => ⟨cs⟩)

/-- Python's `" ".join(xs)` at `String` level. -/
def pyJoinSp (xs : List String) : String := ⟨joinSp (xs.map String.data)⟩

/-- Python's `list.remove(v)`: drop the first occurrence of `v` (the caller
in `toggle_left_column` only calls it under a membership check, so the
`ValueError` branch is unreachable and removal on a `v`-free list is the
identity, as in Python after the guard). -/
def removeFirst : List String → String → List String
  | [], _ => []
  | x :: xs, v => if x = v then xs else x :: removeFirst xs v

/-- `toggle_left_column` from `demo_callbacks.py` (the `collapse_trigger`
click count is unused by the body and omitted). -/
def toggle_left_column (to_collapse_class : String) : String :=
  let classes := if to_collapse_class ≠ "" then pySplit to_collapse_class else []
  if "collapsed" ∈ classes then pyJoinSp (removeFirst classes "collapsed")
  else if to_collapse_class ≠ "" then to_collapse_class ++ " collapsed"
  else "collapsed"

/-- Whether a class string contains the token `"collapsed"`, reading tokens
the way `toggle_left_column` does. -/
def hasCollapsedTok (s : String) : Bool :=
  decide ("collapsed" ∈ (if s ≠ "" then pySplit s else []))

deriving instance DecidableEq for Except

theorem pyRound_ge_floor (q : ℚ) : ⌊q⌋ ≤ pyRound q := by
  simp only [pyRound]
  split
  · exact le_refl _
  · split
    · omega
    · split <;> omega

theorem pyRound_le_floor_add_one (q : ℚ) : pyRound q ≤ ⌊q⌋ + 1 := by
  simp only [pyRound]
  split
  · omega
  · split
    · omega
    · split <;> omega

theorem pyDictNS_marks (n : ℕ) (s : String) (hn : n ≠ 1) :
    pyDictNS [(1, "1"), (n, s)] = [(1, "1"), (n, s)] := by
  have h1 : (1 : ℕ) ≠ n := Ne.symm hn
  simp [pyDictNS, h1]

/-- A one-feature data set, witnessing the out-of-bounds slider default. -/
def oneFeatDS : DataSet :=
  { name := "one", n := 1, columns := ["a"], relevance := [1],
    redundancy := [[1]], baseline_cv_score := 1,
    solve_feature_selection := fun _ _ _ _ => .ok [],
    score_indices_cv := fun _ => 0 }

/-- A four-feature data set used to instantiate universally quantified
theorems at a concrete input. -/
def fourFeatDS : DataSet :=
  { name := "four", n := 4, columns := ["a", "b", "c", "d"],
    relevance := [1, 1, 1, 1],
    redundancy := [[1, 0, 0, 0], [0, 1, 0, 0], [0, 0, 1, 0], [0, 0, 0, 1]],
    baseline_cv_score := 1,
    solve_feature_selection := fun _ _ _ _ => .ok [],
    score_indices_cv := fun _ => 0 }

/-- **C9 (counterexample).** For a data set with exactly one feature the
Number of Features slider configuration has max `1` but default value
`round(1/2) = 0` (Python rounds ties to even), which does NOT lie within
the slider bounds `1 ≤ value ≤ n`; so the claim fails as stated for
"every dataset with at least one feature". -/
theorem create_features_input_value_out_of_bounds :
    (create_features_input (fun _ => oneFeatDS) "one").1 = 1 ∧
    (create_features_input (fun _ => oneFeatDS) "one").2.1 = 0 ∧
    ¬ (1 ≤ (create_features_input (fun _ => oneFeatDS) "one").2.1) := by
  have hf : ⌊(1 : ℚ) / 2⌋ = 0 := by
    rw [Int.floor_eq_iff] <;> norm_num
  have hv : (create_features_input (fun _ => oneFeatDS) "one").2.1 = 0 := by
    simp only [create_features_input, oneFeatDS]
    norm_num [pyRound, hf]
  exact ⟨rfl, hv, by omega⟩

/-- **C9 (amended).** For every dataset with at least TWO features, the
Number of Features slider configuration returned by `create_features_input`
satisfies: the maximum equals the dataset's feature count `n`, the marks
label positions `1` and `n`, and the default value `round(n/2)` lies
between `1` and `n` inclusive. (For a one-feature dataset the default is
`round(1/2) = 0`, outside the bounds.) -/
theorem create_features_input_slider_spec (load : String → DataSet) (ds : String)
    (h : 2 ≤ (load ds).n) :
    (create_features_input load ds).1 = (load ds).n ∧
    (1, "1") ∈ (create_features_input load ds).2.2 ∧
    ((load ds).n, toString (load ds).n) ∈ (create_features_input load ds).2.2 ∧
    1 ≤ (create_features_input load ds).2.1 ∧
    (create_features_input load ds).2.1 ≤ ((load ds).n : ℤ) := by
  have hne : (load ds).n ≠ 1 := by omega
  have hq : (2 : ℚ) ≤ ((load ds).n : ℚ) := by exact_mod_cast h
  have hfl : (1 : ℤ) ≤ ⌊((load ds).n : ℚ) / 2⌋ := by
    apply Int.le_floor.mpr
    push_cast
    linarith
  have hfu : ⌊((load ds).n : ℚ) / 2⌋ ≤ ((load ds).n : ℤ) - 1 := by
    have h2 : ((load ds).n : ℚ) / 2 ≤ ((load ds).n : ℚ) - 1 := by linarith
    have h3 := Int.floor_mono h2
    have h4 : ⌊(((load ds).n : ℚ) - 1)⌋ = ((load ds).n : ℤ) - 1 := by
      rw [show (((load ds).n : ℚ) - 1) = ((((load ds).n : ℤ) - 1 : ℤ) : ℚ) by push_cast; ring,
        Int.floor_intCast]
    rw [h4] at h3
    exact h3
  have hval : (create_features_input load ds).2.1 = pyRound (((load ds).n : ℚ) / 2) := rfl
  have hmax : (create_features_input load ds).1 = (load ds).n := rfl
  have hmarks : (create_features_input load ds).2.2 =
      [(1, "1"), ((load ds).n, toString (load ds).n)] := by
    simp only [create_features_input]
    exact pyDictNS_marks _ _ hne
  refine ⟨hmax, ?_, ?_, ?_, ?_⟩
  · rw [hmarks]; simp
  · rw [hmarks]; simp
  · rw [hval]; exact le_trans hfl (pyRound_ge_floor _)
  · rw [hval]; exact le_trans (pyRound_le_floor_add_one _) (by omega)

/-- **C9 (witness).** The amended slider bounds at the concrete
four-feature data set. -/
theorem create_features_input_slider_spec_witness :
    2 ≤ ((fun _ => fourFeatDS) "four" : DataSet).n ∧
    (1 ≤ (create_features_input (fun _ => fourFeatDS) "four").2.1 ∧
      (create_features_input (fun _ => fourFeatDS) "four").2.1 ≤
        ((((fun _ => fourFeatDS) "four" : DataSet).n : ℤ))) :=
  ⟨by decide,
    (create_features_input_slider_spec (fun _ => fourFeatDS) "four" (by decide)).2.2.2⟩

/-- A data set whose solver result reveals the redundancy-weight argument it
was called with: the solution is `[7]` exactly when the weight is `0`. -/
def probeDS : DataSet :=
  { name := "probe", n := 2, columns := ["a", "b"], relevance := [1, 1],
    redundancy := [[1, 0], [0, 1]], baseline_cv_score := 1,
    solve_feature_selection := fun _ w _ _ => .ok [if w = 0 then 7 else 9],
    score_indices_cv := fun _ => 0 }

/-- **C1 (counterexample).** `run_optimization` does NOT call
`solve_feature_selection` with the redund-slider value itself: with the
slider at `0` the solver receives `1 - 0 = 1`. Against a data set whose
solver output reveals its weight argument, the run's outcome differs from
the outcome the claim predicts. -/
theorem run_optimization_redund_claim_false :
    ¬ (∀ (load : String → DataSet) (rc : ℕ) (st : SolverType) (tl : ℚ)
        (nf : ℕ) (rp : ℚ) (ds : String),
        run_optimization load rc st tl nf rp ds =
          ((load ds).solve_feature_selection nf rp tl
              (if st = SolverType.CQM then "cqm" else "nl")).map
            (fun sol =>
              ⟨(load ds).score_indices_cv (sol.map pyInt), sol.map pyInt,
                generate_problem_details_table_rows st.label tl⟩)) := by
  intro hcl
  have h := hcl (fun _ => probeDS) 0 SolverType.CQM 10 1 0 "probe"
  have h1 : ¬ ((1 : ℚ) - 0 = 0) := by norm_num
  simp only [run_optimization, probeDS, Except.map] at h
  simp [h1, pyInt] at h

/-- **C1 (amended).** For every click of the Run Optimization button,
`run_optimization` triggers the optimization by calling
`DataSet.solve_feature_selection` with the user-selected number of
features, ONE MINUS the redundancy-penalty slider value (`1.0 - redund`) as
the redundancy weight, the user-selected time limit, and the selected
solver; the outputs are built from that call's result. -/
theorem run_optimization_calls_solver (load : String → DataSet) (rc : ℕ)
    (st : SolverType) (tl : ℚ) (nf : ℕ) (rp : ℚ) (ds : String) :
    run_optimization load rc st tl nf rp ds =
      ((load ds).solve_feature_selection nf (1 - rp) tl
          (if st = SolverType.CQM then "cqm" else "nl")).map
        (fun sol =>
          ⟨(load ds).score_indices_cv (sol.map pyInt), sol.map pyInt,
            generate_problem_details_table_rows st.label tl⟩) := by
  unfold run_optimization
  cases h : (load ds).solve_feature_selection nf (1 - rp) tl
      (if st = SolverType.CQM then "cqm" else "nl") <;>
    simp [Except.map, h]

/-- **C2.** For every successful run, `run_optimization` returns selected
features equal to the solver's index collection with each element converted
to a Python int, and a score equal to `score_indices_cv` applied to that
converted list. -/
theorem run_optimization_success_outputs (load : String → DataSet) (rc : ℕ)
    (st : SolverType) (tl : ℚ) (nf : ℕ) (rp : ℚ) (ds : String) (sol : List ℤ)
    (h : (load ds).solve_feature_selection nf (1 - rp) tl
        (if st = SolverType.CQM then "cqm" else "nl") = .ok sol) :
    run_optimization load rc st tl nf rp ds =
      .ok ⟨(load ds).score_indices_cv (sol.map pyInt), sol.map pyInt,
        generate_problem_details_table_rows st.label tl⟩ := by
  unfold run_optimization
  simp [h]

/-- A data set whose solver always succeeds with `[1, 0]` and whose
cross-validation score distinguishes that list. -/
def okDS : DataSet :=
  { name := "ok", n := 2, columns := ["a", "b"], relevance := [1, 1],
    redundancy := [[1, 0], [0, 1]], baseline_cv_score := 1,
    solve_feature_selection := fun _ _ _ _ => .ok [1, 0],
    score_indices_cv := fun l => if l = [1, 0] then 1 else 0 }

/-- **C2 (witness).** The successful-run outputs at a concrete data set. -/
theorem run_optimization_success_outputs_witness :
    run_optimization (fun _ => okDS) 0 SolverType.CQM 10 1 0 "ok" =
      .ok ⟨((fun _ => okDS) "ok").score_indices_cv ([1, 0].map pyInt),
        [1, 0].map pyInt,
        generate_problem_details_table_rows SolverType.CQM.label 10⟩ :=
  run_optimization_success_outputs (fun _ => okDS) 0 SolverType.CQM 10 1 0 "ok"
    [1, 0] rfl

/-- **C4.** If `solve_feature_selection` raises, the exception propagates
out of `run_optimization` unchanged and none of the three outputs (score,
features, problem-details rows) is produced. -/
theorem run_optimization_propagates_error (load : String → DataSet) (rc : ℕ)
    (st : SolverType) (tl : ℚ) (nf : ℕ) (rp : ℚ) (ds : String) (e : PyError)
    (h : (load ds).solve_feature_selection nf (1 - rp) tl
        (if st = SolverType.CQM then "cqm" else "nl") = .error e) :
    run_optimization load rc st tl nf rp ds = .error e := by
  unfold run_optimization
  simp [h]

/-- A data set whose solver always raises. -/
def failDS : DataSet :=
  { name := "fail", n := 2, columns := ["a", "b"], relevance := [1, 1],
    redundancy := [[1, 0], [0, 1]], baseline_cv_score := 1,
    solve_feature_selection := fun _ _ _ _ => .error (.other "solver failure"),
    score_indices_cv := fun _ => 0 }

/-- **C4 (witness).** Error propagation at a concrete data set. -/
theorem run_optimization_propagates_error_witness :
    run_optimization (fun _ => failDS) 0 SolverType.NL 5 2 0 "fail" =
      .error (.other "solver failure") :=
  run_optimization_propagates_error (fun _ => failDS) 0 SolverType.NL 5 2 0
    "fail" (.other "solver failure") rfl

/-- **C7.** `run_optimization` passes the solver string `"cqm"` when
`SolverType.CQM` is selected and `"nl"` when `SolverType.NL` is selected,
and the problem-details table it produces is exactly one row with the four
cells `'Solver:'`, the solver's label (`'Quantum Hybrid (CQM)'` or
`'Quantum Hybrid (NL)'`), `'Time Limit:'`, and the time limit with an `s`
suffix. -/
theorem run_optimization_solver_and_details (load : String → DataSet) (rc : ℕ)
    (st : SolverType) (tl : ℚ) (nf : ℕ) (rp : ℚ) (ds : String) :
    run_optimization load rc st tl nf rp ds =
      ((load ds).solve_feature_selection nf (1 - rp) tl
          (match st with | SolverType.CQM => "cqm" | SolverType.NL => "nl")).map
        (fun sol =>
          ⟨(load ds).score_indices_cv (sol.map pyInt), sol.map pyInt,
            [["Solver:",
              (match st with
                | SolverType.CQM => "Quantum Hybrid (CQM)"
                | SolverType.NL => "Quantum Hybrid (NL)"),
              "Time Limit:", toString tl ++ "s"]]⟩) := by
  cases st <;>
  · unfold run_optimization
    cases h : (load ds).solve_feature_selection nf (1 - rp) tl _ <;>
      simp [Except.map, h, SolverType.label, generate_problem_details_table_rows]

/-- **C5.** `draw_accuracy_bars` returns a figure with a single bar trace
holding exactly two bars: the first labeled `str(data.n)` with height the
baseline cross-validated accuracy rounded to 2 decimals, the second labeled
`str(len(selected_features))` with height the solution score rounded to 2
decimals. -/
theorem draw_accuracy_bars_two_bars (data : DataSet) (sel : List ℤ) (score : ℚ) :
    ∃ tr : BarTrace, (draw_accuracy_bars data sel score).data = [tr] ∧
      tr.x = [toString data.n, toString sel.length] ∧
      tr.y = [pyRound2 data.baseline_cv_score, pyRound2 score] :=
  ⟨_, rfl, rfl, rfl⟩

/-- **C6.** At page load the session's ephemeral reactive state is
initialized to: selected-features an empty list, soln-score `0.0`,
run-in-progress `False`, and the Results tab disabled. -/
theorem create_interface_initial_state :
    (create_interface.stores.find? (fun s => s.id = "selected-features")).map Store.data
        = some (StoreData.listVal []) ∧
    (create_interface.stores.find? (fun s => s.id = "soln-score")).map Store.data
        = some (StoreData.numVal 0) ∧
    (create_interface.stores.find? (fun s => s.id = "run-in-progress")).map Store.data
        = some (StoreData.boolVal false) ∧
    create_interface.results_tab_disabled = true :=
  ⟨rfl, rfl, rfl, rfl⟩

/-- A one-feature data set against which a remembered hover index from a
larger data set is stale. -/
def staleHoverDS : DataSet :=
  { name := "stale", n := 1, columns := ["a"], relevance := [1],
    redundancy := [[1]], baseline_cv_score := 1,
    solve_feature_selection := fun _ _ _ _ => .ok [],
    score_indices_cv := fun _ => 0 }

/-- **C3 (code bug).** With Show Redundancy checked, a data-set change
(`triggered_id = "dataset"`, so not the suppressed hover-while-unchecked
case) while the remembered hover index (3) is at least the new data set's
feature count (1) makes `draw_input_graph` raise `KeyError("Redundancy")`
— an exception that is not `PreventUpdate` — instead of returning a figure:
the guard in `draw_bar_chart` protects the column assignment but not the
subsequent `df["Redundancy"].values` read. -/
theorem draw_input_graph_stale_hover_keyerror :
    draw_input_graph (fun _ => staleHoverDS) (fun _ _ => []) "dataset"
        (some ⟨3⟩) "stale" true = .error (.keyError "Redundancy") ∧
    PyError.keyError "Redundancy" ≠ PyError.preventUpdate := by decide

/-- A two-feature data set, target of a stale hover index `5`. -/
def twoFeatDS : DataSet :=
  { name := "two", n := 2, columns := ["a", "b"], relevance := [1, 1],
    redundancy := [[1, 0], [0, 1]], baseline_cv_score := 1,
    solve_feature_selection := fun _ _ _ _ => .ok [],
    score_indices_cv := fun _ => 0 }

/-- **C8 (code bug).** `draw_bar_chart` is NOT total on hover events with
Show Redundancy checked: a `pointIndex` of 5 left over from a larger data
set, against a data set with `n = 2`, raises `KeyError("Redundancy")`
instead of returning a figure, although the comment in the source declares
the intent to protect exactly this case. -/
theorem draw_bar_chart_stale_hover_keyerror :
    draw_bar_chart (fun _ _ => []) (some ⟨5⟩) none twoFeatDS true
      = .error (.keyError "Redundancy") := by decide

theorem splitSp_ne_nil (cs : List Char) : splitSp cs ≠ [] := by
  cases cs with
  | nil => simp [splitSp]
  | cons c rest =>
    simp only [splitSp]
    split
    · simp
    · split <;> simp

theorem splitSp_noSpace (cs : List Char) (h : ∀ c ∈ cs, c ≠ ' ') :
    splitSp cs = [cs] := by
  induction cs with
  | nil => rfl
  | cons c rest ih =>
    have hc : c ≠ ' ' := h c (List.mem_cons_self _ _)
    have hrest : splitSp rest = [rest] := ih (fun x hx => h x (List.mem_cons_of_mem _ hx))
    simp [splitSp, hc, hrest]

theorem splitSp_token_append (t rest : List Char) (h : ∀ c ∈ t, c ≠ ' ') :
    splitSp (t ++ ' ' :: rest) = t :: splitSp rest := by
  induction t with
  | nil => simp [splitSp]
  | cons c t' ih =>
    have hc : c ≠ ' ' := h c (List.mem_cons_self _ _)
    have ht' : splitSp (t' ++ ' ' :: rest) = t' :: splitSp rest :=
      ih (fun x hx => h x (List.mem_cons_of_mem _ hx))
    simp [splitSp, hc, ht']

theorem joinSp_cons_cons (a b : List Char) (l : List (List Char)) :
    joinSp (a :: b :: l) = a ++ ' ' :: joinSp (b :: l) := rfl

theorem joinSp_append_singleton (ts : List (List Char)) (x : List Char)
    (h : ts ≠ []) : joinSp (ts ++ [x]) = joinSp ts ++ ' ' :: x := by
  induction ts with
  | nil => contradiction
  | cons a as ih =>
    cases as with
    | nil => rfl
    | cons b bs =>
      have ih' := ih (List.cons_ne_nil _ _)
      calc joinSp ((a :: b :: bs) ++ [x])
          = a ++ ' ' :: joinSp ((b :: bs) ++ [x]) := joinSp_cons_cons _ _ _
        _ = a ++ ' ' :: (joinSp (b :: bs) ++ ' ' :: x) := by rw [ih']
        _ = (a ++ ' ' :: joinSp (b :: bs)) ++ ' ' :: x := by simp
        _ = joinSp (a :: b :: bs) ++ ' ' :: x := by rw [joinSp_cons_cons]

theorem splitSp_joinSp (toks : List (List Char)) (h1 : toks ≠ [])
    (h2 : ∀ t ∈ toks, ∀ c ∈ t, c ≠ ' ') : splitSp (joinSp toks) = toks := by
  induction toks with
  | nil => contradiction
  | cons t ts ih =>
    cases ts with
    | nil => exact splitSp_noSpace t (h2 t (List.mem_cons_self _ _))
    | cons b bs =>
      have hts : splitSp (joinSp (b :: bs)) = b :: bs :=
        ih (by simp) (fun x hx c hc => h2 x (List.mem_cons_of_mem _ hx) c hc)
      have ht : ∀ c ∈ t, c ≠ ' ' := h2 t (List.mem_cons_self _ _)
      simp only [joinSp]
      rw [splitSp_token_append t _ ht, hts]

theorem joinSp_cons_ne_nil (a : List Char) (l : List (List Char)) (h : a ≠ []) :
    joinSp (a :: l) ≠ [] := by
  cases l with
  | nil => simpa [joinSp]
  | cons b bs => simp [joinSp, h]

theorem pyJoinSp_ne_empty (toks : List String) (h1 : toks ≠ [])
    (hne : ∀ t ∈ toks, t ≠ "") : pyJoinSp toks ≠ "" := by
  cases toks with
  | nil => contradiction
  | cons a as =>
    have ha : a ≠ "" := hne a (List.mem_cons_self _ _)
    have had : a.data ≠ [] := by
      intro hd
      exact ha (String.ext hd)
    unfold pyJoinSp
    intro hcontra
    have hdat := congrArg String.data hcontra
    simp only [List.map] at hdat
    exact joinSp_cons_ne_nil a.data _ had hdat

theorem pySplit_pyJoinSp (toks : List String) (h1 : toks ≠ [])
    (hsp : ∀ t ∈ toks, ∀ c ∈ t.data, c ≠ ' ') :
    pySplit (pyJoinSp toks) = toks := by
  unfold pySplit pyJoinSp
  have hmap_ne : toks.map String.data ≠ [] := by simpa using h1
  have hmap_sp : ∀ t ∈ toks.map String.data, ∀ c ∈ t, c ≠ ' ' := by
    intro t ht c hc
    rcases List.mem_map.mp ht with ⟨s, hs, rfl⟩
    exact hsp s hs c hc
  rw [show (String.mk (joinSp (toks.map String.data))).data
      = joinSp (toks.map String.data) from rfl]
  rw [splitSp_joinSp _ hmap_ne hmap_sp, List.map_map]
  have hid : (fun cs => (⟨cs⟩ : String)) ∘ String.data = id := funext fun _ => rfl
  rw [hid, List.map_id]

theorem pyJoinSp_append_collapsed (toks : List String) (h1 : toks ≠ []) :
    pyJoinSp toks ++ " collapsed" = pyJoinSp (toks ++ ["collapsed"]) := by
  apply String.ext
  rw [String.data_append]
  unfold pyJoinSp
  have hmap_ne : toks.map String.data ≠ [] := by simpa using h1
  rw [show ((toks ++ ["collapsed"]).map String.data)
      = toks.map String.data ++ ["collapsed".data] by simp]
  rw [joinSp_append_singleton _ _ hmap_ne]

theorem removeFirst_append_not_mem (xs : List String) (v : String)
    (h : v ∉ xs) : removeFirst (xs ++ [v]) v = xs := by
  induction xs with
  | nil => simp [removeFirst]
  | cons x xs ih =>
    have hx : x ≠ v := by
      intro he
      exact h (he ▸ List.mem_cons_self _ _)
    have hx' : v ∉ xs := fun hm => h (List.mem_cons_of_mem _ hm)
    simp [removeFirst, hx, ih hx']

theorem hasCollapsedTok_join (toks : List String) (h1 : toks ≠ [])
    (hne : ∀ t ∈ toks, t ≠ "") (hsp : ∀ t ∈ toks, ∀ c ∈ t.data, c ≠ ' ') :
    hasCollapsedTok (pyJoinSp toks) = decide ("collapsed" ∈ toks) := by
  unfold hasCollapsedTok
  simp [pyJoinSp_ne_empty toks h1 hne, pySplit_pyJoinSp toks h1 hsp]

theorem toggle_push (toks : List String) (h1 : toks ≠ [])
    (hne : ∀ t ∈ toks, t ≠ "") (hsp : ∀ t ∈ toks, ∀ c ∈ t.data, c ≠ ' ')
    (hmem : "collapsed" ∉ toks) :
    toggle_left_column (pyJoinSp toks) = pyJoinSp (toks ++ ["collapsed"]) := by
  have hjoin_ne : pyJoinSp toks ≠ "" := pyJoinSp_ne_empty toks h1 hne
  have hsplit : pySplit (pyJoinSp toks) = toks := pySplit_pyJoinSp toks h1 hsp
  unfold toggle_left_column
  simp only [if_pos hjoin_ne, hsplit, if_neg hmem, hjoin_ne]
  exact pyJoinSp_append_collapsed toks h1

theorem toggle_pop (pre : List String)
    (hne : ∀ t ∈ pre, t ≠ "") (hsp : ∀ t ∈ pre, ∀ c ∈ t.data, c ≠ ' ')
    (hmem : "collapsed" ∉ pre) :
    toggle_left_column (pyJoinSp (pre ++ ["collapsed"])) = pyJoinSp pre := by
  have h1 : pre ++ ["collapsed"] ≠ [] := by simp
  have hne' : ∀ t ∈ pre ++ ["collapsed"], t ≠ "" := by
    intro t ht
    rcases List.mem_append.mp ht with hl | hr
    · exact hne t hl
    · simp at hr
      subst hr
      decide
  have hsp' : ∀ t ∈ pre ++ ["collapsed"], ∀ c ∈ t.data, c ≠ ' ' := by
    intro t ht
    rcases List.mem_append.mp ht with hl | hr
    · exact hsp t hl
    · simp at hr
      subst hr
      decide
  have hjoin_ne : pyJoinSp (pre ++ ["collapsed"]) ≠ "" :=
    pyJoinSp_ne_empty _ h1 hne'
  have hsplit : pySplit (pyJoinSp (pre ++ ["collapsed"])) = pre ++ ["collapsed"] :=
    pySplit_pyJoinSp _ h1 hsp'
  have hmem' : "collapsed" ∈ pre ++ ["collapsed"] := by simp
  unfold toggle_left_column
  simp only [if_pos hjoin_ne, hsplit, if_pos hmem']
  rw [removeFirst_append_not_mem pre _ hmem]

/-- **C10 (counterexample).** `"a collapsed b"` is a class string whose
tokens are separated by single spaces, yet toggling twice yields
`"a b collapsed"`, not the original string: `list.remove` plus `" ".join`
moves a mid-string `collapsed` token to the end. -/
theorem toggle_left_column_not_involutive :
    toggle_left_column (toggle_left_column "a collapsed b") = "a b collapsed" ∧
    toggle_left_column (toggle_left_column "a collapsed b") ≠ "a collapsed b" := by
  decide

/-- **C10 (amended).** `toggle_left_column` is an involution on class
strings whose tokens are nonempty, separated by single spaces, and in which
the token `collapsed` occurs at most once and only as the final token; on
such strings a single application yields a string containing the token
`collapsed` exactly when the input did not. (A mid-string or duplicated
`collapsed` token breaks both properties.) -/
theorem toggle_left_column_involution (toks : List String)
    (hne : ∀ t ∈ toks, t ≠ "")
    (hsp : ∀ t ∈ toks, ∀ c ∈ t.data, c ≠ ' ')
    (hcount : toks.count "collapsed" ≤ 1)
    (hlast : "collapsed" ∈ toks → toks.getLast? = some "collapsed") :
    toggle_left_column (toggle_left_column (pyJoinSp toks)) = pyJoinSp toks ∧
    hasCollapsedTok (toggle_left_column (pyJoinSp toks)) =
      !hasCollapsedTok (pyJoinSp toks) := by
  by_cases hmem : "collapsed" ∈ toks
  · have hget := hlast hmem
    have hdecomp : toks.dropLast ++ ["collapsed"] = toks :=
      List.dropLast_append_getLast? _ hget
    have hzero : toks.dropLast.count "collapsed" = 0 := by
      rw [← hdecomp, List.count_append] at hcount
      simp at hcount
      omega
    have hmem_pre : "collapsed" ∉ toks.dropLast :=
      List.count_eq_zero.mp hzero
    have hne_pre : ∀ t ∈ toks.dropLast, t ≠ "" :=
      fun t ht => hne t (List.mem_of_mem_dropLast ht)
    have hsp_pre : ∀ t ∈ toks.dropLast, ∀ c ∈ t.data, c ≠ ' ' :=
      fun t ht => hsp t (List.mem_of_mem_dropLast ht)
    have t1 : toggle_left_column (pyJoinSp toks) = pyJoinSp toks.dropLast := by
      have t1' := toggle_pop toks.dropLast hne_pre hsp_pre hmem_pre
      rw [hdecomp] at t1'
      exact t1'
    have hCtoks : hasCollapsedTok (pyJoinSp toks) = true := by
      rw [hasCollapsedTok_join toks (by rintro rfl; simp at hmem) hne hsp]
      simpa using hmem
    by_cases hpre_nil : toks.dropLast = []
    · have htoks : toks = ["collapsed"] := by
        rw [← hdecomp, hpre_nil]
        rfl
      subst htoks
      refine ⟨?_, ?_⟩ <;> decide
    · have t2 : toggle_left_column (pyJoinSp toks.dropLast) =
          pyJoinSp (toks.dropLast ++ ["collapsed"]) :=
        toggle_push toks.dropLast hpre_nil hne_pre hsp_pre hmem_pre
      refine ⟨?_, ?_⟩
      · rw [t1, t2, hdecomp]
      · rw [t1, hasCollapsedTok_join toks.dropLast hpre_nil hne_pre hsp_pre,
          hCtoks]
        simp [hmem_pre]
  · by_cases h1 : toks = []
    · subst h1
      refine ⟨?_, ?_⟩ <;> decide
    · have t1 : toggle_left_column (pyJoinSp toks) =
          pyJoinSp (toks ++ ["collapsed"]) :=
        toggle_push toks h1 hne hsp hmem
      have t2 : toggle_left_column (pyJoinSp (toks ++ ["collapsed"])) =
          pyJoinSp toks :=
        toggle_pop toks hne hsp hmem
      have hne' : ∀ t ∈ toks ++ ["collapsed"], t ≠ "" := by
        intro t ht
        rcases List.mem_append.mp ht with hl | hr
        · exact hne t hl
        · have : t = "collapsed" := by simpa using hr
          subst this
          decide
      have hsp' : ∀ t ∈ toks ++ ["collapsed"], ∀ c ∈ t.data, c ≠ ' ' := by
        intro t ht
        rcases List.mem_append.mp ht with hl | hr
        · exact hsp t hl
        · have : t = "collapsed" := by simpa using hr
          subst this
          decide
      refine ⟨?_, ?_⟩
      · rw [t1, t2]
      · rw [t1, hasCollapsedTok_join (toks ++ ["collapsed"]) (by simp) hne' hsp',
          hasCollapsedTok_join toks h1 hne hsp]
        simp [hmem]

/-- **C10 (witness).** The amended toggle properties at the concrete
well-formed class string `"menu collapsed"`. -/
theorem toggle_left_column_involution_witness :
    toggle_left_column (toggle_left_column (pyJoinSp ["menu", "collapsed"])) =
      pyJoinSp ["menu", "collapsed"] :=
  (toggle_left_column_involution ["menu", "collapsed"] (by decide) (by decide)
    (by decide) (by decide)).1
